import Mathlib

/-!
Verification of the dependency-validity tracking layer of
`rusty_libimobiledevice` (`src/memory_lock.rs`), together with the call
discipline of the resource wrappers (`src/idevice.rs`, `src/services/*`).

Modelling choices (shallow embedding of the Rust source):

* Every `Arc<Mutex<Option<X>>>` is a shared mutable cell.  Sharing is
  observable (two `Arc` clones alias the same slot), so cells live in an
  explicit heap addressed by `CellId`; a lock struct stores the `CellId`
  of each `Arc` field, exactly mirroring which constructor arguments are
  shared (`Arc` passed through) and which are freshly allocated
  (`Arc::new(Mutex::new(Some(*ptr)))`).
* The snapshot types (`idevice_private`, `lockdownd_client_private`,
  `lockdownd_service_descriptor`, `mobile_image_mounter_client_private`)
  are opaque plain-data structs that the layer only copies; they are
  modelled by a type parameter `V`.
* `Mutex::lock` poisoning only arises from a panic on another thread;
  in this single-threaded embedding `lock()` always succeeds, so the
  `Err(_)` poisoning arms of the Rust `match`es are unreachable and the
  `.unwrap()` in `invalidate` never panics.
* `check` returns `Ok(&mut lock.clone())`, i.e. a copy of the slot's
  value; it is embedded as a state-threading function returning the
  result together with the heap it leaves behind, so that "check does
  not mutate" is a theorem about the embedding, not a typing accident.
-/

abbrev CellId := Nat

/-- The store of all `Arc<Mutex<Option<V>>>` cells: `cells` gives each
cell's slot, `next` is the next unused address (every allocated cell has
address `< next`). -/
structure Heap (V : Type) where
  cells : CellId → Option V
  next : CellId

namespace Heap

/-- The empty heap: no cells allocated. -/
def empty (V : Type) : Heap V := ⟨fun _ => none, 0⟩

/-- Read a cell's slot (acquire the mutex, look at the `Option`). -/
def read {V : Type} (h : Heap V) (c : CellId) : Option V := h.cells c

/-- Allocate a fresh cell holding `v` — `Arc::new(Mutex::new(v))`.
Returns the new cell's address and the extended heap. -/
def alloc {V : Type} (h : Heap V) (v : Option V) : CellId × Heap V :=
  (h.next, ⟨fun c => if c = h.next then v else h.cells c, h.next + 1⟩)

/-- Clear a cell's slot — `cell.lock().unwrap().take()` (the taken value
is discarded by every caller in the source). -/
def take {V : Type} (h : Heap V) (c : CellId) : Heap V :=
  ⟨fun c2 => if c2 = c then none else h.cells c2, h.next⟩

theorem read_take_self {V : Type} (h : Heap V) (c : CellId) :
    (h.take c).read c = none := by
  simp [read, take]

theorem read_take_other {V : Type} (h : Heap V) (c c2 : CellId)
    (hne : c2 ≠ c) : (h.take c).read c2 = h.read c2 := by
  simp [read, take, hne]

theorem next_take {V : Type} (h : Heap V) (c : CellId) :
    (h.take c).next = h.next := rfl

end Heap

/-- `IdeviceMemoryLock` (src/memory_lock.rs:17-19): the root of the
dependency chain; one own cell, no parent. -/
structure IdeviceMemoryLock where
  pointer : CellId

namespace IdeviceMemoryLock

/-- `IdeviceMemoryLock::new` (src/memory_lock.rs:22-29): wraps a copy of
the dereferenced device struct in a fresh shared cell. -/
def new {V : Type} (v : V) (h : Heap V) : IdeviceMemoryLock × Heap V :=
  let a := h.alloc (some v)
  (⟨a.1⟩, a.2)

/-- `IdeviceMemoryLock::check` (src/memory_lock.rs:31-43): lock the own
cell; `Some` yields a copy of the value, `None` yields `Err(())`. -/
def check {V : Type} (self : IdeviceMemoryLock) (h : Heap V) :
    Except Unit V × Heap V :=
  match h.read self.pointer with
  | some v => (Except.ok v, h)
  | none => (Except.error (), h)

/-- `IdeviceMemoryLock::invalidate` (src/memory_lock.rs:45-47):
`self.pointer.lock().unwrap().take()`. -/
def invalidate {V : Type} (self : IdeviceMemoryLock) (h : Heap V) :
    Heap V :=
  h.take self.pointer

end IdeviceMemoryLock

/-- `LockdowndClientLock` (src/memory_lock.rs:51-54): own cell plus a
shared handle to the device's cell. -/
structure LockdowndClientLock where
  pointer : CellId
  idevice_pointer : CellId

namespace LockdowndClientLock

/-- `LockdowndClientLock::new` (src/memory_lock.rs:57-65): fresh own
cell for a copy of the client struct; the device cell is the very
`Arc` passed in (shared, not copied). -/
def new {V : Type} (v : V) (idevice_pointer : CellId) (h : Heap V) :
    LockdowndClientLock × Heap V :=
  let a := h.alloc (some v)
  (⟨a.1, idevice_pointer⟩, a.2)

/-- `LockdowndClientLock::check` (src/memory_lock.rs:68-91): lock the
device cell first and return `Err(())` if it is `None`; only then lock
the own cell and return its snapshot. -/
def check {V : Type} (self : LockdowndClientLock) (h : Heap V) :
    Except Unit V × Heap V :=
  match h.read self.idevice_pointer with
  | none => (Except.error (), h)
  | some _ =>
    match h.read self.pointer with
    | some v => (Except.ok v, h)
    | none => (Except.error (), h)

/-- `LockdowndClientLock::invalidate` (src/memory_lock.rs:93-95). -/
def invalidate {V : Type} (self : LockdowndClientLock) (h : Heap V) :
    Heap V :=
  h.take self.pointer

end LockdowndClientLock

/-- `LockdowndServiceLock` (src/memory_lock.rs:98-101): own cell plus a
shared handle to the lockdownd client's cell. -/
structure LockdowndServiceLock where
  pointer : CellId
  lockdownd_client_pointer : CellId

namespace LockdowndServiceLock

/-- `LockdowndServiceLock::new` (src/memory_lock.rs:104-112): fresh own
cell; the client cell is the `Arc` passed in (shared). -/
def new {V : Type} (v : V) (lockdownd_client_pointer : CellId)
    (h : Heap V) : LockdowndServiceLock × Heap V :=
  let a := h.alloc (some v)
  (⟨a.1, lockdownd_client_pointer⟩, a.2)

/-- `LockdowndServiceLock::check` (src/memory_lock.rs:115-138): client
cell first (early `Err(())` on `None`), then the own cell's snapshot. -/
def check {V : Type} (self : LockdowndServiceLock) (h : Heap V) :
    Except Unit V × Heap V :=
  match h.read self.lockdownd_client_pointer with
  | none => (Except.error (), h)
  | some _ =>
    match h.read self.pointer with
    | some v => (Except.ok v, h)
    | none => (Except.error (), h)

/-- `LockdowndServiceLock::invalidate` (src/memory_lock.rs:140-142). -/
def invalidate {V : Type} (self : LockdowndServiceLock) (h : Heap V) :
    Heap V :=
  h.take self.pointer

end LockdowndServiceLock

/-- `MobileImageMounterLock` (src/memory_lock.rs:145-148): own cell plus
a service-descriptor cell. -/
structure MobileImageMounterLock where
  pointer : CellId
  service_pointer : CellId

namespace MobileImageMounterLock

/-- `MobileImageMounterLock::new` (src/memory_lock.rs:151-159).  Unlike
the two constructors above, the parent argument is a raw
`lockdownd_service_descriptor_t` pointer and the field is built as
`Arc::new(Mutex::new(Some(*service_pointer)))`: a FRESH cell holding a
copy of the descriptor, not a shared handle to the service's own cell.
`svc` is the dereferenced descriptor value. -/
def new {V : Type} (v : V) (svc : V) (h : Heap V) :
    MobileImageMounterLock × Heap V :=
  let a := h.alloc (some v)
  let b := a.2.alloc (some svc)
  (⟨a.1, b.1⟩, b.2)

/-- `MobileImageMounterLock::check` (src/memory_lock.rs:162-185):
service cell first (early `Err(())` on `None`), then the own cell. -/
def check {V : Type} (self : MobileImageMounterLock) (h : Heap V) :
    Except Unit V × Heap V :=
  match h.read self.service_pointer with
  | none => (Except.error (), h)
  | some _ =>
    match h.read self.pointer with
    | some v => (Except.ok v, h)
    | none => (Except.error (), h)

/-- `MobileImageMounterLock::invalidate` (src/memory_lock.rs:187-189). -/
def invalidate {V : Type} (self : MobileImageMounterLock) (h : Heap V) :
    Heap V :=
  h.take self.pointer

end MobileImageMounterLock

/-!
Operation sequences over the heap.  `LockOp` enumerates every public
operation of `src/memory_lock.rs`; `applyOp` is its effect on the heap
(checks thread the heap through; constructors allocate; `invalidate`
takes).  This is the alphabet over which the lifetime invariants
(slot goes `Some → None` at most once, never back) are stated.
-/

inductive LockOp (V : Type) where
  | newDevice (v : V)
  | newClient (v : V) (idevice_pointer : CellId)
  | newService (v : V) (lockdownd_client_pointer : CellId)
  | newMounter (v : V) (svc : V)
  | checkDevice (l : IdeviceMemoryLock)
  | checkClient (l : LockdowndClientLock)
  | checkService (l : LockdowndServiceLock)
  | checkMounter (l : MobileImageMounterLock)
  | invDevice (l : IdeviceMemoryLock)
  | invClient (l : LockdowndClientLock)
  | invService (l : LockdowndServiceLock)
  | invMounter (l : MobileImageMounterLock)

/-- Effect of one public operation on the heap of cells. -/
def applyOp {V : Type} (h : Heap V) : LockOp V → Heap V
  | .newDevice v => (IdeviceMemoryLock.new v h).2
  | .newClient v p => (LockdowndClientLock.new v p h).2
  | .newService v p => (LockdowndServiceLock.new v p h).2
  | .newMounter v svc => (MobileImageMounterLock.new v svc h).2
  | .checkDevice l => (l.check h).2
  | .checkClient l => (l.check h).2
  | .checkService l => (l.check h).2
  | .checkMounter l => (l.check h).2
  | .invDevice l => l.invalidate h
  | .invClient l => l.invalidate h
  | .invService l => l.invalidate h
  | .invMounter l => l.invalidate h

/-- Effect of a whole sequence of public operations, first op first. -/
def applyOps {V : Type} (h : Heap V) : List (LockOp V) → Heap V
  | [] => h
  | op :: rest => applyOps (applyOp h op) rest

/-!
Call-discipline model for the resource wrappers (claim about
`src/idevice.rs` and `src/services/*`).  Each wrapper method body is
transcribed as the sequence of validity-layer and native-library events
it performs, in program order.
-/

/-- An event relevant to the validity layer's contract: a `check()`
call, an `invalidate()` call, a call into the native library, or a
native free during teardown. -/
inductive LayerEvent where
  | checkCall
  | invalidateCall
  | nativeCall
  | nativeFree
deriving DecidableEq

/-- `Device` (src/idevice.rs:165-167): holds the raw
`unsafe_bindings::idevice_t` pointer directly — the struct has no
validity-cell field at all. -/
structure Device where
  pointer : CellId

/-- Event trace of `Device::get_handle` (src/idevice.rs:289-297): the
body calls `idevice_get_handle(self.pointer, &mut handle)` and branches
on the result; no `check()` precedes the native call. -/
def Device.get_handle_events (_self : Device) : List LayerEvent :=
  [LayerEvent.nativeCall]

/-- Event trace of `impl Drop for Device` (src/idevice.rs:520-527): the
body calls `idevice_free(self.pointer)`; no `invalidate()` occurs. -/
def Device.drop_events (_self : Device) : List LayerEvent :=
  [LayerEvent.nativeFree]

/-- Event trace of `CompanionProxy::stop_forwarding_service_port`
(src/services/companion_proxy.rs:200-212), a representative derived
feature-client operation: one direct native call, no `check()`. -/
def CompanionProxy.stop_forwarding_events : List LayerEvent :=
  [LayerEvent.nativeCall]

/-- Event trace of `impl Drop for CompanionProxy`
(src/services/companion_proxy.rs:214-220): one native free, no
`invalidate()`. -/
def CompanionProxy.drop_events : List LayerEvent :=
  [LayerEvent.nativeFree]

/-- The discipline the spec requires of a method body: every native
call is immediately preceded by a `check()` call. -/
def checkedBeforeNative : List LayerEvent → Bool
  | [] => true
  | LayerEvent.checkCall :: LayerEvent.nativeCall :: rest =>
      checkedBeforeNative rest
  | LayerEvent.nativeCall :: _ => false
  | _ :: rest => checkedBeforeNative rest

/-- The discipline the spec requires of a teardown body: `invalidate()`
is called exactly once. -/
def invalidatesOnce (t : List LayerEvent) : Bool :=
  t.count LayerEvent.invalidateCall = 1

/-! Helper lemmas about the embedded operations. -/

theorem Heap.take_take_same {V : Type} (h : Heap V) (c : CellId) :
    (h.take c).take c = h.take c := by
  simp only [take]
  congr 1
  funext c2
  by_cases hc : c2 = c <;> simp [hc]

theorem Heap.take_comm {V : Type} (h : Heap V) (c1 c2 : CellId) :
    (h.take c1).take c2 = (h.take c2).take c1 := by
  simp only [take]
  congr 1
  funext c3
  by_cases h1 : c3 = c1 <;> by_cases h2 : c3 = c2 <;> simp [h1, h2]

theorem IdeviceMemoryLock.device_check_snd {V : Type} (l : IdeviceMemoryLock)
    (h : Heap V) : (l.check h).2 = h := by
  unfold check
  cases h.read l.pointer <;> rfl

theorem LockdowndClientLock.client_check_snd {V : Type} (l : LockdowndClientLock)
    (h : Heap V) : (l.check h).2 = h := by
  unfold check
  cases h.read l.idevice_pointer with
  | none => rfl
  | some _ => cases h.read l.pointer <;> rfl

theorem LockdowndServiceLock.service_check_snd {V : Type} (l : LockdowndServiceLock)
    (h : Heap V) : (l.check h).2 = h := by
  unfold check
  cases h.read l.lockdownd_client_pointer with
  | none => rfl
  | some _ => cases h.read l.pointer <;> rfl

theorem MobileImageMounterLock.mounter_check_snd {V : Type} (l : MobileImageMounterLock)
    (h : Heap V) : (l.check h).2 = h := by
  unfold check
  cases h.read l.service_pointer with
  | none => rfl
  | some _ => cases h.read l.pointer <;> rfl

theorem IdeviceMemoryLock.device_check_error_iff {V : Type} (l : IdeviceMemoryLock)
    (h : Heap V) :
    (l.check h).1 = Except.error () ↔ h.read l.pointer = none := by
  unfold check
  cases hv : h.read l.pointer <;> simp

theorem LockdowndClientLock.check_own_none {V : Type}
    (l : LockdowndClientLock) (h : Heap V) (hown : h.read l.pointer = none) :
    (l.check h).1 = Except.error () := by
  unfold check
  cases h.read l.idevice_pointer with
  | none => rfl
  | some _ => rw [hown]

theorem LockdowndServiceLock.check_parent_none {V : Type}
    (l : LockdowndServiceLock) (h : Heap V)
    (hpar : h.read l.lockdownd_client_pointer = none) :
    (l.check h).1 = Except.error () := by
  unfold check
  rw [hpar]

theorem LockdowndServiceLock.service_check_error_iff {V : Type}
    (l : LockdowndServiceLock) (h : Heap V) :
    (l.check h).1 = Except.error () ↔
      h.read l.lockdownd_client_pointer = none ∨ h.read l.pointer = none := by
  unfold check
  cases hp : h.read l.lockdownd_client_pointer with
  | none => simp
  | some _ => cases hv : h.read l.pointer <;> simp

theorem Heap.read_alloc_lt {V : Type} (h : Heap V) (v : Option V)
    (c : CellId) (hc : c < h.next) : (h.alloc v).2.read c = h.read c := by
  simp [alloc, read, Nat.ne_of_lt hc]

theorem Heap.read_take_eq {V : Type} (h : Heap V) (c c2 : CellId) :
    (h.take c).read c2 = if c2 = c then none else h.read c2 := rfl

/-- One public operation never resurrects an existing cell: its slot is
either untouched or cleared, and the allocation frontier only grows. -/
theorem applyOp_frame {V : Type} (h : Heap V) (op : LockOp V) (c : CellId)
    (hc : c < h.next) :
    ((applyOp h op).read c = h.read c ∨ (applyOp h op).read c = none) ∧
    h.next ≤ (applyOp h op).next := by
  cases op with
  | newDevice v =>
      exact ⟨Or.inl (Heap.read_alloc_lt h (some v) c hc), Nat.le_succ _⟩
  | newClient v p =>
      exact ⟨Or.inl (Heap.read_alloc_lt h (some v) c hc), Nat.le_succ _⟩
  | newService v p =>
      exact ⟨Or.inl (Heap.read_alloc_lt h (some v) c hc), Nat.le_succ _⟩
  | newMounter v svc =>
      refine ⟨Or.inl ?_, ?_⟩
      · exact (Heap.read_alloc_lt (h.alloc (some v)).2 (some svc) c
          (Nat.lt_succ_of_lt hc)).trans (Heap.read_alloc_lt h (some v) c hc)
      · exact Nat.le_succ_of_le (Nat.le_succ h.next)
  | checkDevice l =>
      exact ⟨Or.inl (by rw [show applyOp h (.checkDevice l) = (l.check h).2 from rfl,
        l.device_check_snd h]), by rw [show applyOp h (.checkDevice l) = (l.check h).2 from rfl,
        l.device_check_snd h]⟩
  | checkClient l =>
      exact ⟨Or.inl (by rw [show applyOp h (.checkClient l) = (l.check h).2 from rfl,
        l.client_check_snd h]), by rw [show applyOp h (.checkClient l) = (l.check h).2 from rfl,
        l.client_check_snd h]⟩
  | checkService l =>
      exact ⟨Or.inl (by rw [show applyOp h (.checkService l) = (l.check h).2 from rfl,
        l.service_check_snd h]), by rw [show applyOp h (.checkService l) = (l.check h).2 from rfl,
        l.service_check_snd h]⟩
  | checkMounter l =>
      exact ⟨Or.inl (by rw [show applyOp h (.checkMounter l) = (l.check h).2 from rfl,
        l.mounter_check_snd h]), by rw [show applyOp h (.checkMounter l) = (l.check h).2 from rfl,
        l.mounter_check_snd h]⟩
  | invDevice l =>
      refine ⟨?_, Nat.le_refl _⟩
      by_cases hcp : c = l.pointer
      · refine Or.inr ?_
        show (h.take l.pointer).read c = none
        rw [Heap.read_take_eq, if_pos hcp]
      · refine Or.inl ?_
        show (h.take l.pointer).read c = h.read c
        rw [Heap.read_take_eq, if_neg hcp]
  | invClient l =>
      refine ⟨?_, Nat.le_refl _⟩
      by_cases hcp : c = l.pointer
      · refine Or.inr ?_
        show (h.take l.pointer).read c = none
        rw [Heap.read_take_eq, if_pos hcp]
      · refine Or.inl ?_
        show (h.take l.pointer).read c = h.read c
        rw [Heap.read_take_eq, if_neg hcp]
  | invService l =>
      refine ⟨?_, Nat.le_refl _⟩
      by_cases hcp : c = l.pointer
      · refine Or.inr ?_
        show (h.take l.pointer).read c = none
        rw [Heap.read_take_eq, if_pos hcp]
      · refine Or.inl ?_
        show (h.take l.pointer).read c = h.read c
        rw [Heap.read_take_eq, if_neg hcp]
  | invMounter l =>
      refine ⟨?_, Nat.le_refl _⟩
      by_cases hcp : c = l.pointer
      · refine Or.inr ?_
        show (h.take l.pointer).read c = none
        rw [Heap.read_take_eq, if_pos hcp]
      · refine Or.inl ?_
        show (h.take l.pointer).read c = h.read c
        rw [Heap.read_take_eq, if_neg hcp]

/-- A whole sequence of public operations never resurrects an existing
cell. -/
theorem applyOps_frame {V : Type} (ops : List (LockOp V)) :
    ∀ (h : Heap V) (c : CellId), c < h.next →
    ((applyOps h ops).read c = h.read c ∨ (applyOps h ops).read c = none) ∧
    h.next ≤ (applyOps h ops).next := by
  induction ops with
  | nil => exact fun h c _ => ⟨Or.inl rfl, Nat.le_refl _⟩
  | cons op rest ih =>
      intro h c hc
      obtain ⟨h1, h2⟩ := applyOp_frame h op c hc
      obtain ⟨h3, h4⟩ := ih (applyOp h op) c (Nat.lt_of_lt_of_le hc h2)
      refine ⟨?_, Nat.le_trans h2 h4⟩
      rcases h3 with h3 | h3
      · rcases h1 with h1 | h1
        · exact Or.inl (h3.trans h1)
        · exact Or.inr (h3.trans h1)
      · exact Or.inr h3

/-!
A concrete chain built by the constructors themselves, used to
instantiate the general theorems: Device (cell 0, value 0) → Lockdownd
client (cell 1, value 1) → Lockdownd service (cell 2, value 2) → mobile
image mounter (cell 3, value 3; cell 4 receives the copy of the
service-descriptor value 2 that `MobileImageMounterLock::new` makes).
-/

def exDevice : IdeviceMemoryLock × Heap Nat :=
  IdeviceMemoryLock.new 0 (Heap.empty Nat)

def exClient : LockdowndClientLock × Heap Nat :=
  LockdowndClientLock.new 1 exDevice.1.pointer exDevice.2

def exService : LockdowndServiceLock × Heap Nat :=
  LockdowndServiceLock.new 2 exClient.1.pointer exClient.2

def exMounter : MobileImageMounterLock × Heap Nat :=
  MobileImageMounterLock.new 3 2 exService.2

/-- Claim C1 is false as stated: in the concrete Device → client →
service chain, after `invalidate()` on the root Device the root's cell
is `None` and the client's `check()` fails, yet the grandchild
service's `check()` still succeeds with its snapshot — `check` inspects
only the immediate parent's cell, so invalidation does not reach
grandchildren transitively, and the leaf's `check()` succeeds while not
every node from leaf to root holds `Some`. -/
theorem root_invalidation_not_transitive :
    (exDevice.1.invalidate exService.2).read exDevice.1.pointer = none ∧
    (exClient.1.check (exDevice.1.invalidate exService.2)).1 =
      Except.error () ∧
    (exService.1.check (exDevice.1.invalidate exService.2)).1 =
      Except.ok 2 :=
  ⟨rfl, rfl, rfl⟩

/-- Claim C1 (amended): for a Device → client → service chain, the
leaf's `check()` fails iff its immediate parent's cell or its own cell
holds `None`; invalidating the root makes the root's and the client's
`check()` fail, but leaves the grandchild service's `check()` result
unchanged — parent validation is one hop only, so invalidation of a
node breaks that node and its immediate children, not grandchildren. -/
theorem check_one_hop_characterization {V : Type} (hp : Heap V)
    (d : IdeviceMemoryLock) (c : LockdowndClientLock)
    (s : LockdowndServiceLock)
    (hcd : c.idevice_pointer = d.pointer)
    (hsc : s.lockdownd_client_pointer = c.pointer)
    (hcp : c.pointer ≠ d.pointer) (hsp : s.pointer ≠ d.pointer) :
    ((s.check hp).1 = Except.error () ↔
      (hp.read s.lockdownd_client_pointer = none ∨
        hp.read s.pointer = none)) ∧
    ((d.check (d.invalidate hp)).1 = Except.error ()) ∧
    ((c.check (d.invalidate hp)).1 = Except.error ()) ∧
    ((s.check (d.invalidate hp)).1 = (s.check hp).1) := by
  refine ⟨LockdowndServiceLock.service_check_error_iff s hp, ?_, ?_, ?_⟩
  · refine (IdeviceMemoryLock.device_check_error_iff d _).mpr ?_
    show (hp.take d.pointer).read d.pointer = none
    exact Heap.read_take_self hp d.pointer
  · have hparent : (d.invalidate hp).read c.idevice_pointer = none := by
      rw [hcd]
      exact Heap.read_take_self hp d.pointer
    unfold LockdowndClientLock.check
    rw [hparent]
  · have h1 : (d.invalidate hp).read s.lockdownd_client_pointer =
        hp.read s.lockdownd_client_pointer := by
      rw [hsc]
      exact Heap.read_take_other hp d.pointer c.pointer hcp
    have h2 : (d.invalidate hp).read s.pointer = hp.read s.pointer :=
      Heap.read_take_other hp d.pointer s.pointer hsp
    unfold LockdowndServiceLock.check
    rw [h1, h2]
    cases hp.read s.lockdownd_client_pointer with
    | none => rfl
    | some _ => cases hp.read s.pointer <;> rfl

/-- Witness for the amended C1 theorem at the concrete chain. -/
theorem check_one_hop_characterization_witness :
    (exService.1.check (exDevice.1.invalidate exService.2)).1 =
      (exService.1.check exService.2).1 :=
  (check_one_hop_characterization exService.2 exDevice.1 exClient.1
    exService.1 rfl rfl (by decide) (by decide)).2.2.2

/-- Claim C2 fails at the MobileImageMounterLock level: its constructor
receives the service descriptor as a raw pointer and wraps a COPY of it
in a fresh cell (address 4 here, distinct from the service lock's own
cell 2), instead of retaining a shared handle; consequently invalidating
the service's own cell is not observed — the mounter's `check()` still
returns `Ok`.  The client's constructor, by contrast, does retain the
device's cell (same address).  This contradicts the layer's stated
purpose and `check`'s own doc comment ("Returns a pointer to the object
if all dependencies are satisfied"). -/
theorem mounter_parent_cell_not_shared :
    exClient.1.idevice_pointer = exDevice.1.pointer ∧
    exMounter.1.service_pointer ≠ exService.1.pointer ∧
    (exService.1.invalidate exMounter.2).read exService.1.pointer =
      none ∧
    (exMounter.1.check (exService.1.invalidate exMounter.2)).1 =
      Except.ok 3 :=
  ⟨rfl, by decide, rfl, rfl⟩

/-- Claim C3: for every lock type with a parent cell, `check()` consults
the parent cell first and, when it holds `None`, fails with `Err(())`
without the own slot influencing the result (the heap, and hence the own
slot, is arbitrary here); only when the parent holds `Some` is the
result the own slot's snapshot (`Ok` of a copy when `Some`, `Err(())`
when `None`). -/
theorem check_consults_parent_first {V : Type} (hp : Heap V) :
    (∀ l : LockdowndClientLock, hp.read l.idevice_pointer = none →
      (l.check hp).1 = Except.error ()) ∧
    (∀ (l : LockdowndClientLock) (v : V),
      hp.read l.idevice_pointer = some v →
      (l.check hp).1 = (match hp.read l.pointer with
        | some w => Except.ok w
        | none => Except.error ())) ∧
    (∀ l : LockdowndServiceLock,
      hp.read l.lockdownd_client_pointer = none →
      (l.check hp).1 = Except.error ()) ∧
    (∀ (l : LockdowndServiceLock) (v : V),
      hp.read l.lockdownd_client_pointer = some v →
      (l.check hp).1 = (match hp.read l.pointer with
        | some w => Except.ok w
        | none => Except.error ())) ∧
    (∀ l : MobileImageMounterLock, hp.read l.service_pointer = none →
      (l.check hp).1 = Except.error ()) ∧
    (∀ (l : MobileImageMounterLock) (v : V),
      hp.read l.service_pointer = some v →
      (l.check hp).1 = (match hp.read l.pointer with
        | some w => Except.ok w
        | none => Except.error ())) := by
  refine ⟨?_, ?_, ?_, ?_, ?_, ?_⟩
  · intro l hpar
    unfold LockdowndClientLock.check
    rw [hpar]
  · intro l v hpar
    unfold LockdowndClientLock.check
    rw [hpar]
    cases hp.read l.pointer <;> rfl
  · intro l hpar
    unfold LockdowndServiceLock.check
    rw [hpar]
  · intro l v hpar
    unfold LockdowndServiceLock.check
    rw [hpar]
    cases hp.read l.pointer <;> rfl
  · intro l hpar
    unfold MobileImageMounterLock.check
    rw [hpar]
  · intro l v hpar
    unfold MobileImageMounterLock.check
    rw [hpar]
    cases hp.read l.pointer <;> rfl

/-- Witness for C3 at the concrete chain: with the device invalidated,
the client's own slot still holds `Some 1`, yet `check()` fails because
the parent cell is consulted first. -/
theorem check_consults_parent_first_witness :
    (exDevice.1.invalidate exService.2).read exClient.1.pointer =
      some 1 ∧
    (exClient.1.check (exDevice.1.invalidate exService.2)).1 =
      Except.error () :=
  ⟨rfl,
    (check_consults_parent_first
      (exDevice.1.invalidate exService.2)).1 exClient.1 rfl⟩

/-- Claim C4 is false as stated: `Device::get_handle`
(src/idevice.rs:289-297) issues the native call with no preceding
`check()`, and `impl Drop for Device` (src/idevice.rs:520-527) frees the
native resource without calling `invalidate()`. -/
theorem wrapper_discipline_counterexample :
    checkedBeforeNative (Device.get_handle_events ⟨0⟩) = false ∧
    invalidatesOnce (Device.drop_events ⟨0⟩) = false := by
  constructor
  · rfl
  · decide

/-- Claim C4 (amended): the wrapper objects in this source do not route
operations through the validity layer at all: `Device` stores the raw
native pointer with no validity cell, `Device::get_handle` performs one
bare native call and no `check()`, `Drop for Device` performs one bare
native free and no `invalidate()`, and the derived feature client
`CompanionProxy` behaves the same way — the wrappers rely on Rust borrow
lifetimes (`PhantomData<&Device>`) instead of the check/invalidate
protocol. -/
theorem wrappers_bypass_validity_layer :
    (∀ d : Device,
      Device.get_handle_events d = [LayerEvent.nativeCall] ∧
      (Device.get_handle_events d).count LayerEvent.checkCall = 0 ∧
      Device.drop_events d = [LayerEvent.nativeFree] ∧
      (Device.drop_events d).count LayerEvent.invalidateCall = 0) ∧
    CompanionProxy.stop_forwarding_events.count LayerEvent.checkCall
      = 0 ∧
    CompanionProxy.drop_events.count LayerEvent.invalidateCall = 0 := by
  refine ⟨?_, rfl, rfl⟩
  intro d
  exact ⟨rfl, rfl, rfl, rfl⟩

/-- Claim C5: invalidating the middle node of a Device → client →
service chain clears only the client's own cell: every other cell is
untouched, the root's `check()` still succeeds with its snapshot, the
client's `check()` fails, and the service's `check()` fails because its
parent cell (the client's cell) is gone — invalidation need not
originate at the root to break a descendant. -/
theorem middle_invalidation_is_local {V : Type} (hp : Heap V)
    (d : IdeviceMemoryLock) (c : LockdowndClientLock)
    (s : LockdowndServiceLock)
    (_hcd : c.idevice_pointer = d.pointer)
    (hsc : s.lockdownd_client_pointer = c.pointer)
    (hdc : d.pointer ≠ c.pointer)
    (v : V) (hv : hp.read d.pointer = some v) :
    (∀ c2 : CellId, c2 ≠ c.pointer →
      (c.invalidate hp).read c2 = hp.read c2) ∧
    ((d.check (c.invalidate hp)).1 = Except.ok v) ∧
    ((c.check (c.invalidate hp)).1 = Except.error ()) ∧
    ((s.check (c.invalidate hp)).1 = Except.error ()) := by
  refine ⟨?_, ?_, ?_, ?_⟩
  · intro c2 hne
    exact Heap.read_take_other hp c.pointer c2 hne
  · have hd : (c.invalidate hp).read d.pointer = some v := by
      show (hp.take c.pointer).read d.pointer = some v
      rw [Heap.read_take_other hp c.pointer d.pointer hdc]
      exact hv
    unfold IdeviceMemoryLock.check
    rw [hd]
  · refine LockdowndClientLock.check_own_none c _ ?_
    exact Heap.read_take_self hp c.pointer
  · refine LockdowndServiceLock.check_parent_none s _ ?_
    rw [hsc]
    exact Heap.read_take_self hp c.pointer

/-- Witness for C5 at the concrete chain. -/
theorem middle_invalidation_is_local_witness :
    ((exDevice.1.check (exClient.1.invalidate exService.2)).1 =
      Except.ok 0) ∧
    ((exService.1.check (exClient.1.invalidate exService.2)).1 =
      Except.error ()) :=
  ⟨(middle_invalidation_is_local exService.2 exDevice.1 exClient.1
      exService.1 rfl rfl (by decide) 0 rfl).2.1,
   (middle_invalidation_is_local exService.2 exDevice.1 exClient.1
      exService.1 rfl rfl (by decide) 0 rfl).2.2.2⟩

/-- Claim C6: across any sequence of public operations of the layer, an
existing cell whose slot is `None` never becomes `Some` again, and an
existing cell's slot is only ever kept or cleared — never overwritten
with a new `Some`; consequently, once a cell's own `check()` has failed,
every later `check()` on that same cell fails as well. -/
theorem invalidated_state_is_terminal {V : Type} (ops : List (LockOp V))
    (h : Heap V) (c : CellId) (hc : c < h.next) :
    (h.read c = none → (applyOps h ops).read c = none) ∧
    ((applyOps h ops).read c = h.read c ∨
      (applyOps h ops).read c = none) ∧
    (∀ l : IdeviceMemoryLock, l.pointer = c →
      (l.check h).1 = Except.error () →
      (l.check (applyOps h ops)).1 = Except.error ()) := by
  obtain ⟨h1, _⟩ := applyOps_frame ops h c hc
  refine ⟨?_, h1, ?_⟩
  · intro hnone
    rcases h1 with h1 | h1
    · exact h1.trans hnone
    · exact h1
  · intro l hl herr
    have hnone : h.read c = none := by
      rw [← hl]
      exact (IdeviceMemoryLock.device_check_error_iff l h).mp herr
    have hterm : (applyOps h ops).read c = none := by
      rcases h1 with h1 | h1
      · rw [h1, hnone]
      · exact h1
    refine (IdeviceMemoryLock.device_check_error_iff l _).mpr ?_
    rw [hl]
    exact hterm

/-- Witness for C6: the device cell of the concrete chain, across a
sequence that invalidates it, checks it, and invalidates it again. -/
theorem invalidated_state_is_terminal_witness :
    (applyOps exService.2 [LockOp.invDevice exDevice.1,
        LockOp.checkDevice exDevice.1,
        LockOp.invDevice exDevice.1]).read exDevice.1.pointer =
      exService.2.read exDevice.1.pointer ∨
    (applyOps exService.2 [LockOp.invDevice exDevice.1,
        LockOp.checkDevice exDevice.1,
        LockOp.invDevice exDevice.1]).read exDevice.1.pointer = none :=
  (invalidated_state_is_terminal
    [LockOp.invDevice exDevice.1, LockOp.checkDevice exDevice.1,
      LockOp.invDevice exDevice.1]
    exService.2 exDevice.1.pointer (by decide)).2.1

/-- Claim C7: `invalidate()` is idempotent for every lock type — a
second `invalidate()` yields exactly the same heap (hence the same slot
contents and the same result for every subsequent `check()`) as the
first, and an invalidated cell stays invalidated. -/
theorem invalidate_idempotent {V : Type} (hp : Heap V) :
    (∀ l : IdeviceMemoryLock,
      l.invalidate (l.invalidate hp) = l.invalidate hp ∧
      (l.invalidate hp).read l.pointer = none) ∧
    (∀ l : LockdowndClientLock,
      l.invalidate (l.invalidate hp) = l.invalidate hp ∧
      (l.invalidate hp).read l.pointer = none) ∧
    (∀ l : LockdowndServiceLock,
      l.invalidate (l.invalidate hp) = l.invalidate hp ∧
      (l.invalidate hp).read l.pointer = none) ∧
    (∀ l : MobileImageMounterLock,
      l.invalidate (l.invalidate hp) = l.invalidate hp ∧
      (l.invalidate hp).read l.pointer = none) :=
  ⟨fun l => ⟨Heap.take_take_same hp l.pointer,
      Heap.read_take_self hp l.pointer⟩,
   fun l => ⟨Heap.take_take_same hp l.pointer,
      Heap.read_take_self hp l.pointer⟩,
   fun l => ⟨Heap.take_take_same hp l.pointer,
      Heap.read_take_self hp l.pointer⟩,
   fun l => ⟨Heap.take_take_same hp l.pointer,
      Heap.read_take_self hp l.pointer⟩⟩

/-- Claim C8: `check()` never mutates any cell — for every lock type it
returns the heap it was given, so a repeated `check()` returns the same
snapshot as the first. -/
theorem check_never_mutates {V : Type} (hp : Heap V) :
    (∀ l : IdeviceMemoryLock, (l.check hp).2 = hp ∧
      (l.check (l.check hp).2).1 = (l.check hp).1) ∧
    (∀ l : LockdowndClientLock, (l.check hp).2 = hp ∧
      (l.check (l.check hp).2).1 = (l.check hp).1) ∧
    (∀ l : LockdowndServiceLock, (l.check hp).2 = hp ∧
      (l.check (l.check hp).2).1 = (l.check hp).1) ∧
    (∀ l : MobileImageMounterLock, (l.check hp).2 = hp ∧
      (l.check (l.check hp).2).1 = (l.check hp).1) :=
  ⟨fun l => ⟨l.device_check_snd hp, by rw [l.device_check_snd hp]⟩,
   fun l => ⟨l.client_check_snd hp, by rw [l.client_check_snd hp]⟩,
   fun l => ⟨l.service_check_snd hp, by rw [l.service_check_snd hp]⟩,
   fun l => ⟨l.mounter_check_snd hp, by rw [l.mounter_check_snd hp]⟩⟩

/-- Claim C10: `invalidate()` has no precondition on the parent: for the
dependent lock types it is exactly `take` on the own cell, it does not
depend on the parent field at all (same own cell, different parent cells
— same result), it leaves the own slot `None` whatever the previous
state of any cell, and a chain may be torn down in any order (the two
orders of a pair of `invalidate()` calls yield the same heap). -/
theorem invalidate_ignores_ancestors {V : Type} (hp : Heap V) :
    (∀ p q1 q2 : CellId,
      LockdowndServiceLock.invalidate ⟨p, q1⟩ hp = hp.take p ∧
      MobileImageMounterLock.invalidate ⟨p, q1⟩ hp = hp.take p ∧
      LockdowndServiceLock.invalidate ⟨p, q1⟩ hp =
        LockdowndServiceLock.invalidate ⟨p, q2⟩ hp ∧
      (LockdowndServiceLock.invalidate ⟨p, q1⟩ hp).read p = none) ∧
    (∀ (s : LockdowndServiceLock) (m : MobileImageMounterLock),
      m.invalidate (s.invalidate hp) = s.invalidate (m.invalidate hp)) :=
  ⟨fun p _ _ => ⟨rfl, rfl, rfl, Heap.read_take_self hp p⟩,
   fun s m => Heap.take_comm hp s.pointer m.pointer⟩
